import Mathlib

/-!
Shallow embedding of `asa_objectified/asa_objects.py` (ASA firewall
configuration objects) in Lean 4.  Python values are modelled explicitly:
`Option` for attributes that may be `None`, `Except PyErr` for code that can
raise, and explicit state passing for attribute mutation.  Python truthiness
(`if not x`, `assert a and b`) is modelled by the `pyTruthy*` helpers.
-/

/-- The Python exception kinds raised by the embedded code. -/
inductive PyErr where
  | valueError (msg : String)
  | typeError (msg : String)
  | assertionError (msg : String)
  | attributeError (msg : String)
deriving Repr, DecidableEq

/-- Python truthiness of a string: the empty string is falsy. -/
def pyTruthyStr (s : String) : Bool :=
  match s.data with
  | [] => false
  | _ :: _ => true

/-- Python truthiness of an optional string: `None` and `''` are falsy. -/
def pyTruthyOptStr : Option String → Bool
  | none => false
  | some s => pyTruthyStr s

/-- Python truthiness of an optional integer: `None` and `0` are falsy. -/
def pyTruthyOptInt : Option Int → Bool
  | none => false
  | some n => n != 0

/-- Rendering of an optional string inside a Python f-string
(`None` prints as `None`). -/
def pyStrOfOptStr : Option String → String
  | none => "None"
  | some s => s

/-- Rendering of an optional integer inside a Python f-string. -/
def pyStrOfOptInt : Option Int → String
  | none => "None"
  | some n => toString n

/-- Numeric value of a list of decimal digit characters. -/
def digitsVal (l : List Char) : Nat :=
  l.foldl (fun a c => a * 10 + (c.toNat - 48)) 0

/-- Whether a string is nonempty and all decimal digits
(Python `str.isdigit` / `str.isnumeric` on ASCII input). -/
def pyIsNumeric (s : String) : Bool :=
  match s.data with
  | [] => false
  | l => l.all Char.isDigit

/-- Python `str.upper()` on ASCII input: uppercase every character. -/
def pyUpper (s : String) : String :=
  String.mk (s.data.map Char.toUpper)

/-! ### `ipaddress.IPv4Network` (the fragment used by the source)

`NetworkObject` delegates all address parsing to Python's
`ipaddress.IPv4Network`.  The embedding below reproduces its behaviour on
string input: dotted-quad parsing with strict octet rules, an optional
`/prefix` part given as a prefix length or as a netmask/hostmask, and the
strict "host bits set" check.  A parsed network is the pair of its (32-bit)
network address and its prefix length. -/

structure IPv4Net where
  addr : Nat
  prefixlen : Nat
deriving Repr, DecidableEq

/-- Python `str.split(sep)` for a one-character separator, over the
character list of the string (empty parts included, as in Python). -/
def splitOnChar (sep : Char) : List Char → List (List Char)
  | [] => [[]]
  | c :: rest =>
    let r := splitOnChar sep rest
    if c == sep then
      [] :: r
    else
      match r with
      | [] => [[c]]
      | h :: t => (c :: h) :: t

/-- Parse one dotted-quad octet: nonempty, decimal digits only, at most three
characters, no leading zero, value at most 255. -/
def parseOctet (s : List Char) : Except PyErr Nat :=
  match s with
  | [] => .error (.valueError "Empty octet not permitted")
  | l =>
    if !l.all Char.isDigit then
      .error (.valueError "Only decimal digits permitted in octet")
    else if l.length > 3 then
      .error (.valueError "At most 3 characters permitted in octet")
    else if l.headD ' ' == '0' && l.length > 1 then
      .error (.valueError "Leading zeros are not permitted in octet")
    else if digitsVal l > 255 then
      .error (.valueError "Octet value greater than 255 not permitted")
    else
      .ok (digitsVal l)

/-- Parse a dotted-quad IPv4 address string into its 32-bit integer value
(`ipaddress._ip_int_from_string`). -/
def ipIntFromString (s : List Char) : Except PyErr Nat :=
  match splitOnChar '.' s with
  | [a, b, c, d] => do
    let a ← parseOctet a
    let b ← parseOctet b
    let c ← parseOctet c
    let d ← parseOctet d
    .ok (a * 16777216 + b * 65536 + c * 256 + d)
  | _ => .error (.valueError "Expected 4 octets")

/-- The 32-bit netmask value of a prefix length (`p` ones then zeros). -/
def maskFromPrefixlen (p : Nat) : Nat :=
  4294967296 - 2 ^ (32 - p)

/-- Recover a prefix length from a 32-bit mask value that is contiguous ones
followed by zeros (`ipaddress._prefix_from_ip_int`); `none` otherwise. -/
def prefixlenFromIpInt (m : Nat) : Option Nat :=
  (List.range 33).find? (fun p => maskFromPrefixlen p == m)

/-- Parse the part after `/`: either a decimal prefix length at most 32, or a
dotted-quad netmask (contiguous ones) or hostmask (complement of one)
(`ipaddress.IPv4Network._make_netmask` on string input). -/
def makeNetmask (s : List Char) : Except PyErr Nat :=
  if s ≠ [] ∧ s.all Char.isDigit then
    if digitsVal s ≤ 32 then .ok (digitsVal s)
    else .error (.valueError "Invalid netmask")
  else
    match ipIntFromString s with
    | .error _ => .error (.valueError "Invalid netmask")
    | .ok ipInt =>
      match prefixlenFromIpInt ipInt with
      | some p => .ok p
      | none =>
        match prefixlenFromIpInt (2 ^ 32 - 1 - ipInt) with
        | some p => .ok p
        | none => .error (.valueError "Invalid netmask")

/-- Embeds `ipaddress.IPv4Network(s)` on a string, with the default `strict=True`:
splits an optional `/` part, defaults to `/32`, and rejects an address with
host bits set. -/
def IPv4Network_ofString (s : String) : Except PyErr IPv4Net :=
  match splitOnChar '/' s.data with
  | [a] => do
    let addr ← ipIntFromString a
    .ok ⟨addr, 32⟩
  | [a, m] => do
    let addr ← ipIntFromString a
    let p ← makeNetmask m
    if addr % 2 ^ (32 - p) == 0 then
      .ok ⟨addr, p⟩
    else
      .error (.valueError "has host bits set")
  | _ => .error (.valueError "Only one slash permitted")

/-- Dotted-quad rendering of a 32-bit address value. -/
def ipDotted (n : Nat) : String :=
  toString (n / 16777216 % 256) ++ "." ++ toString (n / 65536 % 256) ++ "."
    ++ toString (n / 256 % 256) ++ "." ++ toString (n % 256)

/-- Embeds `self.ip.netmask` rendering: the dotted form of the prefix mask. -/
def IPv4Net.netmaskStr (net : IPv4Net) : String :=
  ipDotted (maskFromPrefixlen net.prefixlen)

/-! ### `NetworkObject` -/

/-- Embeds `NetworkObject.ObjectType` from the source. -/
inductive NetworkObject.ObjectType where
  | RANGE
  | HOST
  | NETWORK
  | FQDN
deriving Repr, DecidableEq

/-- The attribute state of a `NetworkObject` instance.  `ip`, `end_ip` and
`fqdn` are `none` while the corresponding Python attribute is unset. -/
structure NetworkObject where
  description : Option String
  name : Option String
  type : Option NetworkObject.ObjectType
  ip : Option IPv4Net
  end_ip : Option IPv4Net
  fqdn : Option String
deriving Repr, DecidableEq

namespace NetworkObject

/-- Reading a Python attribute that may still be unset: raises
`AttributeError` when it is. -/
def getAttr (x : Option α) (name : String) : Except PyErr α :=
  match x with
  | none => .error (.attributeError name)
  | some v => .ok v

/-- Embeds `NetworkObject.generate_name`: sets `self.name` from the current
attributes and returns it; raises `ValueError` when `type` is not set. -/
def generate_name (o : NetworkObject) : Except PyErr (NetworkObject × String) :=
  match o.type with
  | some .HOST => do
    let net ← getAttr o.ip "ip"
    let n := "HOST_" ++ ipDotted net.addr
    .ok ({ o with name := some n }, n)
  | some .NETWORK => do
    let net ← getAttr o.ip "ip"
    let n := "NET_" ++ ipDotted net.addr ++ "_" ++ toString net.prefixlen
    .ok ({ o with name := some n }, n)
  | some .RANGE => do
    let net ← getAttr o.ip "ip"
    let eNet ← getAttr o.end_ip "end_ip"
    let n := "RANGE_" ++ ipDotted net.addr ++ "-" ++ ipDotted eNet.addr
    .ok ({ o with name := some n }, n)
  | some .FQDN =>
    let n := "FQDN_" ++ pyStrOfOptStr o.fqdn
    .ok ({ o with name := some n }, n)
  | none => .error (.valueError "NetworkObject not set to type when generating name.")

/-- Embeds `NetworkObject.init_fqdn_object`. -/
def init_fqdn_object (o : NetworkObject) (fqdn : Option String) :
    Except PyErr NetworkObject := do
  let o := { o with fqdn := fqdn, type := some .FQDN }
  if !pyTruthyOptStr o.name then
    let (o, _) ← o.generate_name
    .ok o
  else
    .ok o

/-- Embeds `NetworkObject.init_range_object`. -/
def init_range_object (o : NetworkObject) (ip end_ip : Option String) :
    Except PyErr NetworkObject := do
  let ipNet ← IPv4Network_ofString (pyStrOfOptStr ip)
  let endNet ← IPv4Network_ofString (pyStrOfOptStr end_ip)
  let o := { o with ip := some ipNet, end_ip := some endNet, type := some .RANGE }
  if !pyTruthyOptStr o.name then
    let (o, _) ← o.generate_name
    .ok o
  else
    .ok o

/-- The normalisation step at the top of `NetworkObject.init_host_or_net_object`:
exactly one of the three `IPv4Network` paths applies — `ip/netmask`,
`ip/CIDR`, or `ip` alone. -/
def host_or_net_parse (ip netmask CIDR : Option String) : Except PyErr IPv4Net :=
  if pyTruthyOptStr netmask then
    IPv4Network_ofString (pyStrOfOptStr ip ++ "/" ++ pyStrOfOptStr netmask)
  else if pyTruthyOptStr CIDR then
    IPv4Network_ofString (pyStrOfOptStr ip ++ "/" ++ pyStrOfOptStr CIDR)
  else
    IPv4Network_ofString (pyStrOfOptStr ip)

/-- Embeds `NetworkObject.init_host_or_net_object`: normalises the input through
`host_or_net_parse`, then sets `type` to HOST exactly when the prefix length
is 32 and NETWORK otherwise, then generates a name if none is set. -/
def init_host_or_net_object (o : NetworkObject)
    (ip netmask CIDR : Option String) : Except PyErr NetworkObject := do
  let ipNet ← host_or_net_parse ip netmask CIDR
  let o := { o with ip := some ipNet }
  let o :=
    if ipNet.prefixlen == 32 then
      { o with type := some .HOST }
    else
      { o with type := some .NETWORK }
  if !pyTruthyOptStr o.name then
    let (o, _) ← o.generate_name
    .ok o
  else
    .ok o

end NetworkObject

/-- Embeds `NetworkObject.__init__`. -/
def NetworkObject_init
    (ob_type : Option NetworkObject.ObjectType)
    (ip netmask description CIDR name fqdn end_ip : Option String) :
    Except PyErr NetworkObject :=
  let o : NetworkObject :=
    { description := description, name := name, type := ob_type,
      ip := none, end_ip := none, fqdn := none }
  match ob_type with
  | none => .ok o
  | some .HOST => o.init_host_or_net_object ip netmask CIDR
  | some .NETWORK => o.init_host_or_net_object ip netmask CIDR
  | some .RANGE => o.init_range_object ip end_ip
  | some .FQDN => o.init_fqdn_object fqdn

namespace NetworkObject

/-- Embeds `NetworkObject.cli_definition`: generates the name if unset, then renders
the definition line. -/
def cli_definition (o : NetworkObject) : Except PyErr (NetworkObject × String) := do
  if !pyTruthyOptStr o.name then
    let (o, _) ← o.generate_name
    .ok (o, "object network " ++ pyStrOfOptStr o.name)
  else
    .ok (o, "object network " ++ pyStrOfOptStr o.name)

/-- Embeds `NetworkObject.cli_attributes`: the single attribute line for the object
type currently set. -/
def cli_attributes (o : NetworkObject) : Except PyErr String :=
  match o.type with
  | none => .error (.valueError "No value set for object type.")
  | some .HOST => do
    let net ← getAttr o.ip "ip"
    .ok (" host " ++ ipDotted net.addr)
  | some .NETWORK => do
    let net ← getAttr o.ip "ip"
    .ok (" subnet " ++ ipDotted net.addr ++ " " ++ net.netmaskStr)
  | some .RANGE => do
    let net ← getAttr o.ip "ip"
    let eNet ← getAttr o.end_ip "end_ip"
    .ok (" range " ++ ipDotted net.addr ++ " " ++ ipDotted eNet.addr)
  | some .FQDN =>
    .ok (" fqdn " ++ pyStrOfOptStr o.fqdn)

/-- An element of the list built by `NetworkObject.cli_full`.  The source
appends the attributes `self.cli_definition` and `self.cli_attributes`
without calling them, so the list holds two bound-method objects, then the
optional description string and the `'!'` string. -/
inductive CliItem where
  | boundMethod (method : String)
  | str (s : String)
deriving Repr, DecidableEq

/-- Embeds `NetworkObject.cli_full`, exactly as written in the source:
`rule_text = [self.cli_definition, self.cli_attributes]` stores the bound
methods themselves (no call parentheses), then appends the description line
when the description is truthy, then `'!'`. -/
def cli_full (o : NetworkObject) : List CliItem :=
  [CliItem.boundMethod "cli_definition", CliItem.boundMethod "cli_attributes"]
    ++ (if pyTruthyOptStr o.description then
          [CliItem.str (" description " ++ pyStrOfOptStr o.description)]
        else [])
    ++ [CliItem.str "!"]

end NetworkObject

/-! ### `_ServiceObject` family -/

/-- Embeds `_ServiceObject.PortSelecterType` from the source. -/
inductive PortSelecterType where
  | SINGLE
  | RANGE
  | LESS_THAN
  | GREATER_THAN
  | NOT_EQUALS
deriving Repr, DecidableEq

/-- The `.value` of each `PortSelecterType` member, its CLI token. -/
def PortSelecterType.value : PortSelecterType → String
  | .SINGLE => "eq"
  | .RANGE => "range"
  | .LESS_THAN => "lt"
  | .GREATER_THAN => "gt"
  | .NOT_EQUALS => "neq"

/-- The attribute state of a `_TcpOrUdpObject` instance.  `_OBJECT_TYPE` is
the class attribute supplied by `TcpObject` (`'tcp'`) or `UdpObject`
(`'udp'`); the selector types are plain attributes, the ports live in the
underscore slots written by the property setters. -/
structure _TcpOrUdpObject where
  _name : Option String
  source_port_selecter_type : Option PortSelecterType
  _source_port : Option Int
  _source_end_port : Option Int
  dest_port_selecter_type : Option PortSelecterType
  _dest_port : Option Int
  _dest_end_port : Option Int
  _OBJECT_TYPE : String
deriving Repr, DecidableEq

namespace _TcpOrUdpObject

/-- Embeds `_TcpOrUdpObject._check_port`: `None` passes (returns `False`), an
integer outside `[0, 65535]` raises `ValueError`. -/
def _check_port (port : Option Int) : Except PyErr Bool :=
  match port with
  | none => .ok false
  | some p =>
    if 0 ≤ p ∧ p ≤ 65535 then .ok true
    else .error (.valueError "Port value is out of range")

/-- The `source_port` property getter. -/
def source_port (o : _TcpOrUdpObject) : Option Int := o._source_port

/-- The `source_end_port` property getter. -/
def source_end_port (o : _TcpOrUdpObject) : Option Int := o._source_end_port

/-- The `dest_port` property getter. -/
def dest_port (o : _TcpOrUdpObject) : Option Int := o._dest_port

/-- The `dest_end_port` property getter.  In the source this property is
built by the decorator `@dest_port.setter` applied to the method named
`dest_end_port`, so the resulting property keeps `dest_port`'s getter: a
read of `dest_end_port` returns `self._dest_port`. -/
def dest_end_port (o : _TcpOrUdpObject) : Option Int := o._dest_port

/-- The `source_port` property setter. -/
def set_source_port (o : _TcpOrUdpObject) (port : Option Int) :
    Except PyErr _TcpOrUdpObject := do
  let _ ← _check_port port
  .ok { o with _source_port := port }

/-- The `source_end_port` property setter. -/
def set_source_end_port (o : _TcpOrUdpObject) (port : Option Int) :
    Except PyErr _TcpOrUdpObject := do
  let _ ← _check_port port
  .ok { o with _source_end_port := port }

/-- The `dest_port` property setter. -/
def set_dest_port (o : _TcpOrUdpObject) (port : Option Int) :
    Except PyErr _TcpOrUdpObject := do
  let _ ← _check_port port
  .ok { o with _dest_port := port }

/-- The setter half of the `dest_end_port` property (this half does target
`self._dest_end_port`). -/
def set_dest_end_port (o : _TcpOrUdpObject) (port : Option Int) :
    Except PyErr _TcpOrUdpObject := do
  let _ ← _check_port port
  .ok { o with _dest_end_port := port }

/-- Embeds `_TcpOrUdpObject.generate_name`: builds the name from the selector types
and the port properties (so the destination RANGE part reads `dest_end_port`,
whose getter returns `_dest_port`), caches it in `_name` and returns it. -/
def generate_name (o : _TcpOrUdpObject) : _TcpOrUdpObject × String :=
  let name := "SVC_" ++ pyUpper o._OBJECT_TYPE
  let name :=
    match o.source_port_selecter_type with
    | none => name
    | some t =>
      if t = PortSelecterType.RANGE then
        name ++ "_SRC_RANGE_" ++ pyStrOfOptInt o.source_port ++ "-"
          ++ pyStrOfOptInt o.source_end_port
      else
        name ++ "_SRC_" ++ pyUpper t.value ++ "_" ++ pyStrOfOptInt o.source_port
  let name :=
    match o.dest_port_selecter_type with
    | none => name
    | some t =>
      if t = PortSelecterType.RANGE then
        name ++ "_DEST_RANGE_" ++ pyStrOfOptInt o.dest_port ++ "-"
          ++ pyStrOfOptInt o.dest_end_port
      else
        name ++ "_DEST_" ++ pyUpper t.value ++ "_" ++ pyStrOfOptInt o.dest_port
  ({ o with _name := some name }, name)

/-- The `_ServiceObject.name` property getter, as inherited by
`_TcpOrUdpObject`: returns `_name` when truthy, otherwise the result of
`generate_name` (which caches it). -/
def name (o : _TcpOrUdpObject) : _TcpOrUdpObject × String :=
  match o._name with
  | some n => if pyTruthyStr n then (o, n) else o.generate_name
  | none => o.generate_name

/-- Embeds `_ServiceObject.cli_definition`, as inherited by `_TcpOrUdpObject`:
reads the `name` property, re-generates if the result is falsy, then renders
the definition line from another read of the property. -/
def cli_definition (o : _TcpOrUdpObject) : _TcpOrUdpObject × String :=
  let p := o.name
  let o₂ := if pyTruthyStr p.2 then p.1 else (p.1.generate_name).1
  let q := o₂.name
  (q.1, "object service " ++ q.2)

/-- The source clause of `_TcpOrUdpObject.cli_attributes`: empty when no
source selector is set; `assert` failures are modelled as
`AssertionError`. -/
def cli_attributes_source (o : _TcpOrUdpObject) : Except PyErr String :=
  match o.source_port_selecter_type with
  | none => .ok ""
  | some t =>
    if t = PortSelecterType.RANGE then
      if pyTruthyOptInt o.source_port && pyTruthyOptInt o.source_end_port then
        .ok (" source " ++ t.value ++ " " ++ pyStrOfOptInt o.source_port
          ++ " " ++ pyStrOfOptInt o.source_end_port)
      else
        .error (.assertionError "Range starting or ending port not defined")
    else
      if pyTruthyOptInt o.source_port then
        .ok (" source " ++ t.value ++ " " ++ pyStrOfOptInt o.source_port)
      else
        .error (.assertionError "Source port not defined")

/-- The destination clause of `_TcpOrUdpObject.cli_attributes`, exactly as in
the source: the RANGE branch checks `self.dest_port and self.dest_end_port`
(where the `dest_end_port` getter returns `_dest_port`) and emits a clause
beginning with the literal token `source`; the non-RANGE branch emits
`destination`. -/
def cli_attributes_dest (o : _TcpOrUdpObject) : Except PyErr String :=
  match o.dest_port_selecter_type with
  | none => .ok ""
  | some t =>
    if t = PortSelecterType.RANGE then
      if pyTruthyOptInt o.dest_port && pyTruthyOptInt o.dest_end_port then
        .ok (" source " ++ t.value ++ " " ++ pyStrOfOptInt o.dest_port
          ++ " " ++ pyStrOfOptInt o.dest_end_port)
      else
        .error (.assertionError "Range starting or ending port not defined")
    else
      if pyTruthyOptInt o.dest_port then
        .ok (" destination " ++ t.value ++ " " ++ pyStrOfOptInt o.dest_port)
      else
        .error (.assertionError "Destination port not defined")

/-- Embeds `_TcpOrUdpObject.cli_attributes`: the two leading `assert`s on selector
validity always hold in this typed embedding; then the source and
destination clauses are appended to `service <tcp|udp>` with no leading
space on the line itself. -/
def cli_attributes (o : _TcpOrUdpObject) : Except PyErr String := do
  let source ← o.cli_attributes_source
  let dest ← o.cli_attributes_dest
  .ok ("service " ++ o._OBJECT_TYPE ++ source ++ dest)

/-- Embeds `_ServiceObject.cli_full`, as inherited by `_TcpOrUdpObject`:
`[self.cli_definition(), self.cli_attributes(), '!']`, evaluated left to
right (`cli_definition` may cache the name). -/
def cli_full (o : _TcpOrUdpObject) : Except PyErr (_TcpOrUdpObject × List String) := do
  let p := o.cli_definition
  let attrs ← p.1.cli_attributes
  .ok (p.1, [p.2, attrs, "!"])

end _TcpOrUdpObject

/-- Embeds `_TcpOrUdpObject.__init__` specialised by `_OBJECT_TYPE`: assigns the
parameters through the property setters in source order. -/
def TcpOrUdpObject_init (ty : String)
    (source_port_selecter_type : Option PortSelecterType)
    (source_port source_end_port : Option Int)
    (dest_port_selecter_type : Option PortSelecterType)
    (dest_port dest_end_port : Option Int)
    (name : Option String) : Except PyErr _TcpOrUdpObject := do
  let o : _TcpOrUdpObject :=
    { _name := name,
      source_port_selecter_type := source_port_selecter_type,
      _source_port := none, _source_end_port := none,
      dest_port_selecter_type := dest_port_selecter_type,
      _dest_port := none, _dest_end_port := none,
      _OBJECT_TYPE := ty }
  let o ← o.set_source_port source_port
  let o ← o.set_source_end_port source_end_port
  let o ← o.set_dest_port dest_port
  let o ← o.set_dest_end_port dest_end_port
  .ok o

/-- Embeds `TcpObject.__init__` (`_OBJECT_TYPE = 'tcp'`). -/
def TcpObject_init
    (source_port_selecter_type : Option PortSelecterType)
    (source_port source_end_port : Option Int)
    (dest_port_selecter_type : Option PortSelecterType)
    (dest_port dest_end_port : Option Int)
    (name : Option String) : Except PyErr _TcpOrUdpObject :=
  TcpOrUdpObject_init "tcp" source_port_selecter_type source_port
    source_end_port dest_port_selecter_type dest_port dest_end_port name

/-- Embeds `UdpObject.__init__` (`_OBJECT_TYPE = 'udp'`). -/
def UdpObject_init
    (source_port_selecter_type : Option PortSelecterType)
    (source_port source_end_port : Option Int)
    (dest_port_selecter_type : Option PortSelecterType)
    (dest_port dest_end_port : Option Int)
    (name : Option String) : Except PyErr _TcpOrUdpObject :=
  TcpOrUdpObject_init "udp" source_port_selecter_type source_port
    source_end_port dest_port_selecter_type dest_port dest_end_port name

/-- The keyword parameters declared by `_TcpOrUdpObject.__init__` (besides
`self`). -/
def TcpOrUdpObject_init_params : List String :=
  ["source_port_selecter_type", "source_port", "source_end_port",
   "dest_port_selecter_type", "dest_port", "dest_end_port", "name"]

/-- Python's call protocol for `_TcpOrUdpObject.__init__`: a call whose
keyword-argument names are not all among the declared parameters raises
`TypeError` before the body runs; the signature has no `**kwargs`. -/
def TcpOrUdpObject_call_kwargs (kwargs : List String) : Except PyErr Unit :=
  if kwargs.all (fun k => TcpOrUdpObject_init_params.contains k) then
    .ok ()
  else
    .error (.typeError "unexpected keyword argument")

/-! ### `IcmpObject` -/

/-- A Python value stored in `icmp_type`: either a string or an integer. -/
inductive IcmpVal where
  | str (s : String)
  | int (n : Int)
deriving Repr, DecidableEq

/-- Python truthiness of an optional `icmp_type` value: `None`, `''` and the
integer `0` are falsy. -/
def pyTruthyIcmp : Option IcmpVal → Bool
  | none => false
  | some (.str s) => pyTruthyStr s
  | some (.int n) => n != 0

/-- Rendering of an optional `icmp_type` value inside a Python f-string. -/
def pyStrOfIcmp : Option IcmpVal → String
  | none => "None"
  | some (.str s) => s
  | some (.int n) => toString n

/-- Python `int(value)` on an `icmp_type` value that is an integer or a
numeric string (the only cases that reach the conversion in the source). -/
def icmpToInt : Option IcmpVal → Int
  | some (.int n) => n
  | some (.str s) => Int.ofNat (digitsVal s.data)
  | none => 0

/-- The attribute state of an `IcmpObject` instance. -/
structure IcmpObject where
  _name : Option String
  _icmp_code : Option Int
  _icmp_type : Option IcmpVal
deriving Repr, DecidableEq

namespace IcmpObject

/-- Embeds `IcmpObject._verify_icmp_code`: `1 <= int(value) <= 255` or
`ValueError`.  When the value is `None` the conversion `int(None)` itself
raises `TypeError` (the source has no `None` guard here). -/
def _verify_icmp_code (value : Option Int) (raise_error : Bool) :
    Except PyErr Bool :=
  match value with
  | none => .error (.typeError "int() argument cannot be NoneType")
  | some v =>
    if 1 ≤ v ∧ v ≤ 255 then .ok true
    else if raise_error then .error (.valueError "The given ICMP code is invalid")
    else .ok false

/-- Embeds `IcmpObject._verify_icmp_type`: a non-numeric string (including the
empty string) is accepted as-is; then a falsy value (`None` or the integer
`0`) raises `ValueError('ICMP Type not set')`; then `0 <= int(value) <= 255`
or `ValueError`. -/
def _verify_icmp_type (value : Option IcmpVal) (raise_error : Bool) :
    Except PyErr Bool :=
  let isNonNumericStr :=
    match value with
    | some (.str s) => !pyIsNumeric s
    | _ => false
  if isNonNumericStr then .ok true
  else if !pyTruthyIcmp value then .error (.valueError "ICMP Type not set")
  else if 0 ≤ icmpToInt value ∧ icmpToInt value ≤ 255 then .ok true
  else if raise_error then .error (.valueError "The given ICMP type is invalid")
  else .ok false

/-- The `icmp_code` property setter: `None` is stored directly as unset,
otherwise `_verify_icmp_code` (with `raise_error` defaulted to `True`) must
accept the value before it is stored. -/
def set_icmp_code (o : IcmpObject) (value : Option Int) :
    Except PyErr IcmpObject :=
  match value with
  | none => .ok { o with _icmp_code := none }
  | some v => do
    let ok ← _verify_icmp_code (some v) true
    if ok then .ok { o with _icmp_code := some v }
    else .ok o

/-- The `icmp_type` property setter: `None` is stored directly as unset,
otherwise `_verify_icmp_type` (with `raise_error` defaulted to `True`) must
accept the value before it is stored. -/
def set_icmp_type (o : IcmpObject) (value : Option IcmpVal) :
    Except PyErr IcmpObject :=
  match value with
  | none => .ok { o with _icmp_type := none }
  | some v => do
    let ok ← _verify_icmp_type (some v) true
    if ok then .ok { o with _icmp_type := some v }
    else .ok o

/-- Embeds `IcmpObject.generate_name`: asserts the type is truthy, builds
`SVC_ICMP_TYPE_<type>` with optional `_CODE_<code>`, uppercases it, caches
it through the `name` setter and returns it. -/
def generate_name (o : IcmpObject) : Except PyErr (IcmpObject × String) :=
  if pyTruthyIcmp o._icmp_type then
    let name := "SVC_ICMP_TYPE_" ++ pyStrOfIcmp o._icmp_type
    let name :=
      if pyTruthyOptInt o._icmp_code then
        name ++ "_CODE_" ++ pyStrOfOptInt o._icmp_code
      else name
    let n := pyUpper name
    .ok ({ o with _name := some n }, n)
  else
    .error (.assertionError "ICMP type attribute unset during name generation")

/-- The `_ServiceObject.name` property getter, as inherited by
`IcmpObject`. -/
def name (o : IcmpObject) : Except PyErr (IcmpObject × String) :=
  match o._name with
  | some n => if pyTruthyStr n then .ok (o, n) else o.generate_name
  | none => o.generate_name

/-- Embeds `IcmpObject.cli_definition` (delegates to `_ServiceObject`): reads the
`name` property, re-generates if the result is falsy, then renders the
definition line from another read of the property. -/
def cli_definition (o : IcmpObject) : Except PyErr (IcmpObject × String) := do
  let p ← o.name
  let o₂ ←
    if pyTruthyStr p.2 then .ok p.1
    else do
      let q ← p.1.generate_name
      .ok q.1
  let q ← o₂.name
  .ok (q.1, "object service " ++ q.2)

/-- Embeds `IcmpObject.cli_attributes`: re-validates `icmp_type` and `_icmp_code`
(the latter crashing on `None`, see `_verify_icmp_code`), then renders
` service icmp <type>` with the optional trailing code. -/
def cli_attributes (o : IcmpObject) : Except PyErr String := do
  let _ ← _verify_icmp_type o._icmp_type true
  let _ ← _verify_icmp_code o._icmp_code true
  let c := " service icmp " ++ pyStrOfIcmp o._icmp_type
  let c :=
    if pyTruthyOptInt o._icmp_code then c ++ " " ++ pyStrOfOptInt o._icmp_code
    else c
  .ok c

/-- Embeds `IcmpObject.cli_full` (delegates to `_ServiceObject.cli_full`). -/
def cli_full (o : IcmpObject) : Except PyErr (IcmpObject × List String) := do
  let p ← o.cli_definition
  let attrs ← p.1.cli_attributes
  .ok (p.1, [p.2, attrs, "!"])

end IcmpObject

/-- Embeds `IcmpObject.__init__`: sets `name`, then `icmp_code`, then `icmp_type`
through the property setters, in source order. -/
def IcmpObject_init (name : Option String) (icmp_type : Option IcmpVal)
    (icmp_code : Option Int) : Except PyErr IcmpObject := do
  let o : IcmpObject := { _name := name, _icmp_code := none, _icmp_type := none }
  let o ← o.set_icmp_code icmp_code
  let o ← o.set_icmp_type icmp_type
  .ok o

/-! ### Helper lemmas -/

theorem except_bind_ok (a : α) (f : α → Except PyErr β) :
    (Except.ok a >>= f) = f a := rfl

theorem except_bind_error (e : PyErr) (f : α → Except PyErr β) :
    ((Except.error e : Except PyErr α) >>= f) = Except.error e := rfl

theorem pyTruthyStr_append (a b : String) :
    pyTruthyStr (a ++ b) = (pyTruthyStr a || pyTruthyStr b) := by
  cases a with
  | mk la =>
    cases b with
    | mk lb =>
      cases la <;> cases lb <;> rfl

theorem pyTruthyStr_pyUpper (s : String) :
    pyTruthyStr (pyUpper s) = pyTruthyStr s := by
  cases s with
  | mk l => cases l <;> rfl

/-! ### Claims -/

/-- C1: the claim that `cli_full()` returns an ordered list of strings fails
on the code.  `NetworkObject.cli_full` appends the bound methods
`self.cli_definition` and `self.cli_attributes` without calling them, so for
`NetworkObject(ob_type=HOST, ip="10.1.1.5")` the returned list is two
bound-method objects followed by `'!'`, not the three CLI strings the claim
(and the method's own docstring) promise.  The description element and the
final `'!'` do behave as described. -/
theorem C1_cli_full_returns_bound_methods :
    (NetworkObject_init (some NetworkObject.ObjectType.HOST) (some "10.1.1.5")
        none none none none none none).map NetworkObject.cli_full
      = Except.ok [NetworkObject.CliItem.boundMethod "cli_definition",
          NetworkObject.CliItem.boundMethod "cli_attributes",
          NetworkObject.CliItem.str "!"]
    ∧ (NetworkObject_init (some NetworkObject.ObjectType.HOST) (some "10.1.1.5")
        none none none none none none).map NetworkObject.cli_full
      ≠ Except.ok [NetworkObject.CliItem.str "object network HOST_10.1.1.5",
          NetworkObject.CliItem.str " host 10.1.1.5",
          NetworkObject.CliItem.str "!"]
    ∧ (NetworkObject_init (some NetworkObject.ObjectType.HOST) (some "10.1.1.5")
        none (some "a desc") none none none none).map NetworkObject.cli_full
      = Except.ok [NetworkObject.CliItem.boundMethod "cli_definition",
          NetworkObject.CliItem.boundMethod "cli_attributes",
          NetworkObject.CliItem.str " description a desc",
          NetworkObject.CliItem.str "!"] := by
  refine ⟨rfl, ?_, rfl⟩
  intro h
  exact absurd (Except.ok.inj h) (by decide)

/-- C2: the claim that a destination RANGE selector with `dest_port` set and
`dest_end_port` unset fails with `MissingPortValue` at render time is false
on the code: the `dest_end_port` property getter returns `_dest_port`, so the
render-time check `self.dest_port and self.dest_end_port` passes and the
range renders `dest_port` in both positions.  The analogous source-side
omission does fail as the claim describes. -/
theorem C2_dest_range_missing_end_port_renders :
    (do
      let o ← TcpObject_init none none none (some PortSelecterType.RANGE)
        (some 80) none none
      o.cli_attributes)
      = Except.ok "service tcp source range 80 80"
    ∧ (do
      let o ← TcpObject_init (some PortSelecterType.RANGE) (some 80) none
        none none none none
      o.cli_attributes)
      = Except.error (PyErr.assertionError "Range starting or ending port not defined") :=
  ⟨rfl, rfl⟩

/-- C3: the claim that an `IcmpObject` with a valid type and an unset code
renders successfully is false on the code: construction accepts the unset
code, but `cli_attributes` re-validates with `_verify_icmp_code(self._icmp_code)`,
whose `int(value)` conversion raises `TypeError` on `None`. -/
theorem C3_icmp_code_none_crashes_render :
    IcmpObject_init none (some (IcmpVal.str "echo")) none
      = Except.ok ⟨none, none, some (IcmpVal.str "echo")⟩
    ∧ (do
      let o ← IcmpObject_init none (some (IcmpVal.str "echo")) none
      o.cli_attributes)
      = Except.error (PyErr.typeError "int() argument cannot be NoneType") :=
  ⟨rfl, rfl⟩

/-- C5: the claim that the ICMP type validation accepts every numeric value
in [0,255] including the integer 0 is false on the code: the falsy check
`not value` in `_verify_icmp_type` catches the integer 0 and raises
`ValueError('ICMP Type not set')`, both in the validator and through the
`icmp_type` setter, even though the numeric string "0" is accepted.  The
other behaviours the claim lists do hold: `None` fails, a non-numeric string
is accepted as-is, and a numeric value outside [0,255] fails as invalid. -/
theorem C5_verify_icmp_type_rejects_integer_zero :
    IcmpObject._verify_icmp_type (some (IcmpVal.int 0)) true
      = Except.error (PyErr.valueError "ICMP Type not set")
    ∧ IcmpObject_init none (some (IcmpVal.int 0)) none
      = Except.error (PyErr.valueError "ICMP Type not set")
    ∧ IcmpObject._verify_icmp_type (some (IcmpVal.str "0")) true = Except.ok true
    ∧ IcmpObject._verify_icmp_type none true
      = Except.error (PyErr.valueError "ICMP Type not set")
    ∧ IcmpObject._verify_icmp_type (some (IcmpVal.str "echo")) true = Except.ok true
    ∧ IcmpObject._verify_icmp_type (some (IcmpVal.int 255)) true = Except.ok true
    ∧ IcmpObject._verify_icmp_type (some (IcmpVal.int 256)) true
      = Except.error (PyErr.valueError "The given ICMP type is invalid") :=
  ⟨rfl, rfl, rfl, rfl, rfl, rfl, rfl⟩

/-- C4 counterexample: constructing `TcpObject` with the keyword arguments
`icmp_type` and `icmp_code` raises `TypeError` at the call, because
`_TcpOrUdpObject.__init__` declares no such parameters and no `**kwargs`;
the claim that construction does not raise is false. -/
theorem C4_counterexample_construction_raises :
    TcpOrUdpObject_call_kwargs ["name", "icmp_type", "icmp_code"]
      = Except.error (PyErr.typeError "unexpected keyword argument") := rfl

/-- C4 (amended): constructing `TcpObject` with keyword attributes foreign to
the type raises `TypeError` at construction (matching the repository's own
xfail test), and any `TcpObject` that is constructed renders following the
TCP template: every successful `cli_attributes` line extends
`service tcp`, never an ICMP-shaped line. -/
theorem C4_foreign_kwargs_rejected_and_tcp_template :
    TcpOrUdpObject_call_kwargs ["name", "icmp_type", "icmp_code"]
      = Except.error (PyErr.typeError "unexpected keyword argument")
    ∧ (∀ (o : _TcpOrUdpObject) (s : String), o._OBJECT_TYPE = "tcp" →
        o.cli_attributes = Except.ok s → ∃ t, s = "service tcp" ++ t) := by
  refine ⟨rfl, ?_⟩
  intro o s hty h
  unfold _TcpOrUdpObject.cli_attributes at h
  cases hsrc : o.cli_attributes_source with
  | error e => rw [hsrc, except_bind_error] at h; exact absurd h (by simp)
  | ok src =>
    rw [hsrc, except_bind_ok] at h
    cases hdst : o.cli_attributes_dest with
    | error e => rw [hdst, except_bind_error] at h; exact absurd h (by simp)
    | ok dst =>
      rw [hdst, except_bind_ok] at h
      have hs := Except.ok.inj h
      refine ⟨src ++ dst, ?_⟩
      rw [← hs, hty]
      rw [show ("service " ++ "tcp" : String) = "service tcp" from rfl]
      rw [String.append_assoc]

/-- C4 witness: the template part of the amended claim at a concrete
constructed `TcpObject` (destination `eq 443`). -/
theorem C4_foreign_kwargs_rejected_and_tcp_template_witness :
    ∃ t, "service tcp destination eq 443" = "service tcp" ++ t :=
  C4_foreign_kwargs_rejected_and_tcp_template.2
    ⟨none, none, none, none, some PortSelecterType.SINGLE, some 443, none, "tcp"⟩
    "service tcp destination eq 443" rfl rfl

/-- C6 counterexample: for a `TcpObject` the `cli_attributes` line does not
start with a space — its first character is `'s'` of `service` — so the
claim that every variant's attribute line starts with a space is false. -/
theorem C6_counterexample_tcp_attributes_no_leading_space :
    (do
      let o ← TcpObject_init none none none (some PortSelecterType.SINGLE)
        (some 443) none none
      o.cli_attributes)
      = Except.ok "service tcp destination eq 443"
    ∧ "service tcp destination eq 443".data.head? = some 's'
    ∧ "service tcp destination eq 443".data.head? ≠ some ' ' :=
  ⟨rfl, rfl, by decide⟩

/-- C9: in the destination-port branch of `_TcpOrUdpObject.cli_attributes`,
the RANGE case emits a clause beginning with the literal token `source`
(copy-paste of the source-side branch), while every non-RANGE destination
clause begins with `destination`. -/
theorem C9_dest_range_clause_uses_source_token :
    ∀ (o : _TcpOrUdpObject),
      (o.dest_port_selecter_type = some PortSelecterType.RANGE →
        pyTruthyOptInt o.dest_port = true →
        o.cli_attributes_dest
          = Except.ok (" source " ++ PortSelecterType.RANGE.value ++ " "
              ++ pyStrOfOptInt o.dest_port ++ " " ++ pyStrOfOptInt o.dest_end_port))
      ∧ (∀ t : PortSelecterType, t ≠ PortSelecterType.RANGE →
          o.dest_port_selecter_type = some t →
          pyTruthyOptInt o.dest_port = true →
          o.cli_attributes_dest
            = Except.ok (" destination " ++ t.value ++ " " ++ pyStrOfOptInt o.dest_port)) := by
  intro o
  constructor
  · intro hsel hp
    unfold _TcpOrUdpObject.cli_attributes_dest
    rw [hsel]
    simp only [_TcpOrUdpObject.dest_end_port, _TcpOrUdpObject.dest_port] at hp ⊢
    simp [hp]
  · intro t ht hsel hp
    unfold _TcpOrUdpObject.cli_attributes_dest
    rw [hsel]
    simp only [_TcpOrUdpObject.dest_end_port, _TcpOrUdpObject.dest_port] at hp ⊢
    simp [hp, ht]

/-- C9 witness: the two branch behaviours at concrete objects — a destination
RANGE of 80 renders a clause starting with `source`, a destination `eq 443`
renders a clause starting with `destination`. -/
theorem C9_dest_range_clause_uses_source_token_witness :
    (⟨none, none, none, none, some PortSelecterType.RANGE, some 80, none,
        "tcp"⟩ : _TcpOrUdpObject).cli_attributes_dest
      = Except.ok " source range 80 80"
    ∧ (⟨none, none, none, none, some PortSelecterType.SINGLE, some 443, none,
        "tcp"⟩ : _TcpOrUdpObject).cli_attributes_dest
      = Except.ok " destination eq 443" :=
  ⟨(C9_dest_range_clause_uses_source_token _).1 rfl rfl,
   (C9_dest_range_clause_uses_source_token _).2 PortSelecterType.SINGLE
     (by decide) rfl rfl⟩

/-- C10: after constructing a TcpObject with `dest_port = w` and
`dest_end_port = v`, reading `dest_end_port` returns `w` (the getter reads
`_dest_port`; the value `v` only reaches the write-only slot
`_dest_end_port`), so a destination RANGE name renders
`_DEST_RANGE_<w>-<w>` and the destination RANGE clause repeats `w` in both
positions. -/
theorem C10_dest_end_port_getter_reads_dest_port :
    ∀ (w v : Int) (o : _TcpOrUdpObject),
      TcpObject_init none none none (some PortSelecterType.RANGE) (some w)
        (some v) none = Except.ok o →
      o.dest_end_port = some w
      ∧ o._dest_end_port = some v
      ∧ (v ≠ w → o.dest_end_port ≠ some v)
      ∧ o.generate_name.2
          = "SVC_TCP_DEST_RANGE_" ++ toString w ++ "-" ++ toString w
      ∧ (w ≠ 0 → o.cli_attributes
          = Except.ok ("service tcp"
              ++ (" source range " ++ toString w ++ " " ++ toString w))) := by
  intro w v o h
  unfold TcpObject_init TcpOrUdpObject_init at h
  simp only [_TcpOrUdpObject.set_source_port, _TcpOrUdpObject.set_source_end_port,
    _TcpOrUdpObject.set_dest_port, _TcpOrUdpObject.set_dest_end_port,
    _TcpOrUdpObject._check_port, except_bind_ok, except_bind_error] at h
  split at h
  · simp only [except_bind_ok] at h
    split at h
    · simp only [except_bind_ok] at h
      obtain rfl : _ = o := Except.ok.inj h
      refine ⟨rfl, rfl, ?_, ?_, ?_⟩
      · intro hv hc
        exact hv (Option.some.inj hc).symm
      · simp only [_TcpOrUdpObject.generate_name, _TcpOrUdpObject.dest_port,
          _TcpOrUdpObject.dest_end_port, pyStrOfOptInt]
        rw [show ("SVC_" ++ pyUpper "tcp") ++ "_DEST_RANGE_"
            = ("SVC_TCP_DEST_RANGE_" : String) from by decide]
        simp
      · intro hw
        simp only [_TcpOrUdpObject.cli_attributes,
          _TcpOrUdpObject.cli_attributes_source, _TcpOrUdpObject.cli_attributes_dest,
          _TcpOrUdpObject.dest_port, _TcpOrUdpObject.dest_end_port,
          pyTruthyOptInt, pyStrOfOptInt, PortSelecterType.value,
          except_bind_ok]
        simp only [bne_iff_ne, ne_eq, hw, not_false_eq_true, if_true, reduceIte,
          Bool.and_self, except_bind_ok]
        rw [show ((" source " ++ "range" : String) ++ " ") = " source range "
            from by decide]
        rw [show (("service " ++ "tcp" : String) ++ "") = "service tcp"
            from by decide]
    · simp only [except_bind_error] at h
      exact Except.noConfusion h
  · simp only [except_bind_error] at h
    exact Except.noConfusion h

/-- C10 witness: the conclusions at `w = 80`, `v = 90`. -/
theorem C10_dest_end_port_getter_reads_dest_port_witness :
    (⟨none, none, none, none, some PortSelecterType.RANGE, some 80, some 90,
        "tcp"⟩ : _TcpOrUdpObject).dest_end_port = some 80
    ∧ (⟨none, none, none, none, some PortSelecterType.RANGE, some 80, some 90,
        "tcp"⟩ : _TcpOrUdpObject)._dest_end_port = some 90
    ∧ ((90 : Int) ≠ 80 →
        (⟨none, none, none, none, some PortSelecterType.RANGE, some 80, some 90,
          "tcp"⟩ : _TcpOrUdpObject).dest_end_port ≠ some 90)
    ∧ (⟨none, none, none, none, some PortSelecterType.RANGE, some 80, some 90,
        "tcp"⟩ : _TcpOrUdpObject).generate_name.2
      = "SVC_TCP_DEST_RANGE_" ++ toString (80 : Int) ++ "-" ++ toString (80 : Int)
    ∧ ((80 : Int) ≠ 0 →
        (⟨none, none, none, none, some PortSelecterType.RANGE, some 80, some 90,
          "tcp"⟩ : _TcpOrUdpObject).cli_attributes
        = Except.ok ("service tcp"
            ++ (" source range " ++ toString (80 : Int) ++ " "
              ++ toString (80 : Int)))) :=
  C10_dest_end_port_getter_reads_dest_port 80 90 _ rfl

/-- C6 (amended): `NetworkObject.cli_attributes` and `IcmpObject.cli_attributes`
return a line whose first character is a space, but
`_TcpOrUdpObject.cli_attributes` (TcpObject/UdpObject) does not: its line
starts directly with the `service <tcp|udp>` tokens, matching the spec's own
concrete TCP scenario. -/
theorem C6_cli_attributes_indentation :
    (∀ (o : NetworkObject) (s : String),
      o.cli_attributes = Except.ok s → s.data.head? = some ' ')
    ∧ (∀ (o : IcmpObject) (s : String),
      o.cli_attributes = Except.ok s → s.data.head? = some ' ')
    ∧ (∀ (o : _TcpOrUdpObject) (s : String),
      o.cli_attributes = Except.ok s → ∃ t, s = "service " ++ t) := by
  refine ⟨?_, ?_, ?_⟩
  · intro o s h
    unfold NetworkObject.cli_attributes at h
    cases hty : o.type with
    | none => rw [hty] at h; exact Except.noConfusion h
    | some t =>
      rw [hty] at h
      cases t with
      | HOST =>
        cases hip : o.ip with
        | none =>
          rw [hip] at h
          simp only [NetworkObject.getAttr, except_bind_error] at h
          exact Except.noConfusion h
        | some net =>
          rw [hip] at h
          simp only [NetworkObject.getAttr, except_bind_ok] at h
          rw [← Except.ok.inj h]
          rfl
      | NETWORK =>
        cases hip : o.ip with
        | none =>
          rw [hip] at h
          simp only [NetworkObject.getAttr, except_bind_error] at h
          exact Except.noConfusion h
        | some net =>
          rw [hip] at h
          simp only [NetworkObject.getAttr, except_bind_ok] at h
          rw [← Except.ok.inj h]
          rfl
      | RANGE =>
        cases hip : o.ip with
        | none =>
          rw [hip] at h
          simp only [NetworkObject.getAttr, except_bind_error] at h
          exact Except.noConfusion h
        | some net =>
          rw [hip] at h
          simp only [NetworkObject.getAttr, except_bind_ok] at h
          cases hep : o.end_ip with
          | none =>
            rw [hep] at h
            simp only [NetworkObject.getAttr, except_bind_error] at h
            exact Except.noConfusion h
          | some eNet =>
            rw [hep] at h
            simp only [NetworkObject.getAttr, except_bind_ok] at h
            rw [← Except.ok.inj h]
            rfl
      | FQDN =>
        rw [← Except.ok.inj h]
        rfl
  · intro o s h
    unfold IcmpObject.cli_attributes at h
    cases hvt : IcmpObject._verify_icmp_type o._icmp_type true with
    | error e => rw [hvt, except_bind_error] at h; exact Except.noConfusion h
    | ok b =>
      rw [hvt, except_bind_ok] at h
      cases hvc : IcmpObject._verify_icmp_code o._icmp_code true with
      | error e => rw [hvc, except_bind_error] at h; exact Except.noConfusion h
      | ok b₂ =>
        rw [hvc, except_bind_ok] at h
        rw [← Except.ok.inj h]
        cases hc : pyTruthyOptInt o._icmp_code <;> simp [hc]
  · intro o s h
    unfold _TcpOrUdpObject.cli_attributes at h
    cases hsrc : o.cli_attributes_source with
    | error e => rw [hsrc, except_bind_error] at h; exact Except.noConfusion h
    | ok src =>
      rw [hsrc, except_bind_ok] at h
      cases hdst : o.cli_attributes_dest with
      | error e => rw [hdst, except_bind_error] at h; exact Except.noConfusion h
      | ok dst =>
        rw [hdst, except_bind_ok] at h
        refine ⟨o._OBJECT_TYPE ++ (src ++ dst), ?_⟩
        rw [← Except.ok.inj h, String.append_assoc, String.append_assoc]

/-- C6 witness: the three parts at concrete objects — a HOST network object
renders `' host 10.1.1.5'`, an ICMP object renders `' service icmp echo 40'`,
and a TCP object renders a line extending `service `. -/
theorem C6_cli_attributes_indentation_witness :
    " host 10.1.1.5".data.head? = some ' '
    ∧ " service icmp echo 40".data.head? = some ' '
    ∧ ∃ t, "service tcp destination eq 443" = "service " ++ t :=
  ⟨C6_cli_attributes_indentation.1
      ⟨none, some "HOST_10.1.1.5", some NetworkObject.ObjectType.HOST,
        some ⟨167837957, 32⟩, none, none⟩ " host 10.1.1.5" rfl,
   C6_cli_attributes_indentation.2.1
      ⟨none, some 40, some (IcmpVal.str "echo")⟩ " service icmp echo 40" rfl,
   C6_cli_attributes_indentation.2.2
      ⟨none, none, none, none, some PortSelecterType.SINGLE, some 443, none,
        "tcp"⟩ "service tcp destination eq 443" rfl⟩

theorem pyTruthyStr_SVC : pyTruthyStr "SVC_" = true := rfl

theorem pyTruthyStr_SVC_ICMP : pyTruthyStr "SVC_ICMP_TYPE_" = true := rfl

theorem tcpudp_generated_name_truthy (o : _TcpOrUdpObject) :
    pyTruthyStr o.generate_name.2 = true := by
  obtain ⟨n0, sst, sp, sep, dst, dp, dep, ty⟩ := o
  rcases sst with _ | t1 <;> rcases dst with _ | t2 <;>
    simp [_TcpOrUdpObject.generate_name, _TcpOrUdpObject.source_port,
      _TcpOrUdpObject.source_end_port, _TcpOrUdpObject.dest_port,
      _TcpOrUdpObject.dest_end_port, apply_ite pyTruthyStr,
      pyTruthyStr_append, pyTruthyStr_SVC]

theorem tcpudp_generate_name_caches (o : _TcpOrUdpObject) :
    o.generate_name.1 = { o with _name := some o.generate_name.2 } := by
  obtain ⟨n0, sst, sp, sep, dst, dp, dep, ty⟩ := o
  rcases sst with _ | t1 <;> rcases dst with _ | t2 <;>
    simp [_TcpOrUdpObject.generate_name, _TcpOrUdpObject.source_port,
      _TcpOrUdpObject.source_end_port, _TcpOrUdpObject.dest_port,
      _TcpOrUdpObject.dest_end_port]

theorem tcpudp_name_of_generate_name (p : _TcpOrUdpObject) :
    p.generate_name.1.name = p.generate_name := by
  unfold _TcpOrUdpObject.name
  rw [tcpudp_generate_name_caches p]
  simp [tcpudp_generated_name_truthy p]
  rw [← tcpudp_generate_name_caches p]

/-- C8: name generation is a pure function of the current attributes —
generating twice without mutation yields the same string, for network
objects re-running `generate_name` reproduces the same result on the updated
state, and for service objects the first computed name is cached in `_name`
and returned unchanged by every later read of the `name` property. -/
theorem C8_generate_name_pure_and_cached :
    (∀ o : _TcpOrUdpObject, (o.generate_name.1.generate_name).2 = o.generate_name.2)
    ∧ (∀ o : _TcpOrUdpObject, o.name.1.name = o.name)
    ∧ (∀ o : _TcpOrUdpObject, o._name = none → o.name.1._name = some o.name.2)
    ∧ (∀ (o o₁ : NetworkObject) (nm : String),
        o.generate_name = Except.ok (o₁, nm) →
        o₁.generate_name = Except.ok (o₁, nm))
    ∧ (∀ (o o₁ : IcmpObject) (n : String),
        o.generate_name = Except.ok (o₁, n) →
        o₁.generate_name = Except.ok (o₁, n)
        ∧ o₁.name = Except.ok (o₁, n)) := by
  refine ⟨?_, ?_, ?_, ?_, ?_⟩
  · intro o
    obtain ⟨n0, sst, sp, sep, dst, dp, dep, ty⟩ := o
    rcases sst with _ | t1 <;> rcases dst with _ | t2 <;>
      simp [_TcpOrUdpObject.generate_name, _TcpOrUdpObject.source_port,
        _TcpOrUdpObject.source_end_port, _TcpOrUdpObject.dest_port,
        _TcpOrUdpObject.dest_end_port]
  · intro o
    cases hn : o._name with
    | none =>
      have hgen : o.name = o.generate_name := by
        unfold _TcpOrUdpObject.name
        rw [hn]
      rw [hgen]
      exact tcpudp_name_of_generate_name o
    | some n =>
      cases hpn : pyTruthyStr n with
      | true =>
        have hid : o.name = (o, n) := by
          unfold _TcpOrUdpObject.name
          rw [hn]
          simp [hpn]
        rw [hid]
        exact hid
      | false =>
        have hgen : o.name = o.generate_name := by
          unfold _TcpOrUdpObject.name
          rw [hn]
          simp [hpn]
        rw [hgen]
        exact tcpudp_name_of_generate_name o
  · intro o hn
    have hgen : o.name = o.generate_name := by
      unfold _TcpOrUdpObject.name
      rw [hn]
    rw [hgen, tcpudp_generate_name_caches o]
  · intro o o₁ nm h
    obtain ⟨d, nm0, ty, ip, eip, fq⟩ := o
    rcases ty with _ | t
    · simp [NetworkObject.generate_name] at h
    · cases t <;> rcases ip with _ | net <;> rcases eip with _ | eNet <;>
        simp [NetworkObject.generate_name, NetworkObject.getAttr] at h ⊢ <;>
        (try obtain ⟨rfl, rfl⟩ := h) <;>
        simp [NetworkObject.generate_name, NetworkObject.getAttr, except_bind_ok]
  · intro o o₁ n h
    obtain ⟨n0, code, ty⟩ := o
    unfold IcmpObject.generate_name at h
    cases hty : pyTruthyIcmp ty with
    | false =>
      rw [show ({ _name := n0, _icmp_code := code, _icmp_type := ty } :
          IcmpObject)._icmp_type = ty from rfl, hty] at h
      simp at h
    | true =>
      rw [show ({ _name := n0, _icmp_code := code, _icmp_type := ty } :
          IcmpObject)._icmp_type = ty from rfl, hty] at h
      simp only [if_true] at h
      have h' := Except.ok.inj h
      injection h' with h1 h2
      subst h1
      subst h2
      constructor
      · unfold IcmpObject.generate_name
        simp [hty]
      · unfold IcmpObject.name
        simp [pyTruthyStr_pyUpper, apply_ite pyTruthyStr, pyTruthyStr_append,
          pyTruthyStr_SVC_ICMP]

/-- C8 witness: the cached-name and re-generation behaviour at concrete
objects — a fresh TCP object with no explicit name, and an ICMP object whose
generated name is `SVC_ICMP_TYPE_ECHO_CODE_40`. -/
theorem C8_generate_name_pure_and_cached_witness :
    ((⟨none, none, none, none, some PortSelecterType.SINGLE, some 443, none,
        "tcp"⟩ : _TcpOrUdpObject).name.1._name
      = some (⟨none, none, none, none, some PortSelecterType.SINGLE, some 443,
          none, "tcp"⟩ : _TcpOrUdpObject).name.2)
    ∧ ((⟨some "SVC_ICMP_TYPE_ECHO_CODE_40", some 40, some (IcmpVal.str "echo")⟩ :
          IcmpObject).generate_name
        = Except.ok (⟨some "SVC_ICMP_TYPE_ECHO_CODE_40", some 40,
            some (IcmpVal.str "echo")⟩, "SVC_ICMP_TYPE_ECHO_CODE_40")
      ∧ (⟨some "SVC_ICMP_TYPE_ECHO_CODE_40", some 40, some (IcmpVal.str "echo")⟩ :
          IcmpObject).name
        = Except.ok (⟨some "SVC_ICMP_TYPE_ECHO_CODE_40", some 40,
            some (IcmpVal.str "echo")⟩, "SVC_ICMP_TYPE_ECHO_CODE_40")) :=
  ⟨C8_generate_name_pure_and_cached.2.2.1 _ rfl,
   C8_generate_name_pure_and_cached.2.2.2.2
     ⟨none, some 40, some (IcmpVal.str "echo")⟩ _ _ rfl⟩

/-- C7: for every NetworkObject initialised through the host-or-network path
on a valid input (whichever of the three normalisation routes applies), the
resulting type is HOST exactly when the parsed prefix length is 32 — an
input with no mask defaults to /32 — and NETWORK otherwise, regardless of
whether the caller requested HOST or NETWORK; `cli_attributes` then renders
`host <addr>` for HOST and `subnet <addr> <netmask>` for NETWORK. -/
theorem C7_host_iff_prefixlen32 :
    ∀ (req : NetworkObject.ObjectType),
      (req = NetworkObject.ObjectType.HOST ∨ req = NetworkObject.ObjectType.NETWORK) →
    ∀ (ip netmask description CIDR name fqdn end_ip : Option String)
      (o : NetworkObject),
      NetworkObject_init (some req) ip netmask description CIDR name fqdn end_ip
        = Except.ok o →
      ∃ net : IPv4Net, o.ip = some net
        ∧ (o.type = some NetworkObject.ObjectType.HOST ↔ net.prefixlen = 32)
        ∧ (net.prefixlen = 32 →
            o.cli_attributes = Except.ok (" host " ++ ipDotted net.addr))
        ∧ (net.prefixlen ≠ 32 →
            o.type = some NetworkObject.ObjectType.NETWORK
            ∧ o.cli_attributes
              = Except.ok (" subnet " ++ ipDotted net.addr ++ " " ++ net.netmaskStr)) := by
  intro req hreq ip netmask description CIDR name fqdn end_ip o h
  have h' : NetworkObject.init_host_or_net_object
      ⟨description, name, some req, none, none, none⟩ ip netmask CIDR
      = Except.ok o := by
    rcases hreq with h1 | h1 <;> subst h1 <;> exact h
  clear h hreq
  unfold NetworkObject.init_host_or_net_object at h'
  cases hp : NetworkObject.host_or_net_parse ip netmask CIDR with
  | error e =>
    rw [hp, except_bind_error] at h'
    exact Except.noConfusion h'
  | ok ipNet =>
    rw [hp, except_bind_ok] at h'
    clear hp
    refine ⟨ipNet, ?_⟩
    cases h32 : ipNet.prefixlen == 32 with
    | true =>
      have hpl : ipNet.prefixlen = 32 := by simpa using h32
      rw [h32] at h'
      cases hnm : pyTruthyOptStr name with
      | false =>
        simp [hnm, NetworkObject.generate_name, NetworkObject.getAttr,
          except_bind_ok] at h'
        subst h'
        refine ⟨rfl, ?_, ?_, ?_⟩
        · simp [hpl]
        · intro _
          simp [NetworkObject.cli_attributes, NetworkObject.getAttr, except_bind_ok]
        · intro hne
          exact absurd hpl hne
      | true =>
        simp [hnm] at h'
        subst h'
        refine ⟨rfl, ?_, ?_, ?_⟩
        · simp [hpl]
        · intro _
          simp [NetworkObject.cli_attributes, NetworkObject.getAttr, except_bind_ok]
        · intro hne
          exact absurd hpl hne
    | false =>
      have hpl : ipNet.prefixlen ≠ 32 := by simpa using h32
      rw [h32] at h'
      cases hnm : pyTruthyOptStr name with
      | false =>
        simp [hnm, NetworkObject.generate_name, NetworkObject.getAttr,
          except_bind_ok] at h'
        subst h'
        refine ⟨rfl, ?_, ?_, ?_⟩
        · simp [hpl]
        · intro hc
          exact absurd hc hpl
        · intro _
          refine ⟨rfl, ?_⟩
          simp [NetworkObject.cli_attributes, NetworkObject.getAttr, except_bind_ok]
      | true =>
        simp [hnm] at h'
        subst h'
        refine ⟨rfl, ?_, ?_, ?_⟩
        · simp [hpl]
        · intro hc
          exact absurd hc hpl
        · intro _
          refine ⟨rfl, ?_⟩
          simp [NetworkObject.cli_attributes, NetworkObject.getAttr, except_bind_ok]

/-- C7 witness: the conclusions at the concrete inputs of the spec's
scenarios — `ip = "10.1.1.5"` asked for as HOST (prefix 32) and
`ip = "10.1.1.0"`, `CIDR = "24"` asked for as NETWORK (prefix 24). -/
theorem C7_host_iff_prefixlen32_witness :
    (∃ net : IPv4Net,
      (⟨none, some "HOST_10.1.1.5", some NetworkObject.ObjectType.HOST,
          some ⟨167837957, 32⟩, none, none⟩ : NetworkObject).ip = some net
      ∧ ((⟨none, some "HOST_10.1.1.5", some NetworkObject.ObjectType.HOST,
          some ⟨167837957, 32⟩, none, none⟩ : NetworkObject).type
            = some NetworkObject.ObjectType.HOST ↔ net.prefixlen = 32)
      ∧ (net.prefixlen = 32 →
          (⟨none, some "HOST_10.1.1.5", some NetworkObject.ObjectType.HOST,
            some ⟨167837957, 32⟩, none, none⟩ : NetworkObject).cli_attributes
          = Except.ok (" host " ++ ipDotted net.addr))
      ∧ (net.prefixlen ≠ 32 →
          (⟨none, some "HOST_10.1.1.5", some NetworkObject.ObjectType.HOST,
            some ⟨167837957, 32⟩, none, none⟩ : NetworkObject).type
            = some NetworkObject.ObjectType.NETWORK
          ∧ (⟨none, some "HOST_10.1.1.5", some NetworkObject.ObjectType.HOST,
              some ⟨167837957, 32⟩, none, none⟩ : NetworkObject).cli_attributes
            = Except.ok (" subnet " ++ ipDotted net.addr ++ " " ++ net.netmaskStr)))
    ∧ (∃ net : IPv4Net,
      (⟨none, some "NET_10.1.1.0_24", some NetworkObject.ObjectType.NETWORK,
          some ⟨167837952, 24⟩, none, none⟩ : NetworkObject).ip = some net
      ∧ ((⟨none, some "NET_10.1.1.0_24", some NetworkObject.ObjectType.NETWORK,
          some ⟨167837952, 24⟩, none, none⟩ : NetworkObject).type
            = some NetworkObject.ObjectType.HOST ↔ net.prefixlen = 32)
      ∧ (net.prefixlen = 32 →
          (⟨none, some "NET_10.1.1.0_24", some NetworkObject.ObjectType.NETWORK,
            some ⟨167837952, 24⟩, none, none⟩ : NetworkObject).cli_attributes
          = Except.ok (" host " ++ ipDotted net.addr))
      ∧ (net.prefixlen ≠ 32 →
          (⟨none, some "NET_10.1.1.0_24", some NetworkObject.ObjectType.NETWORK,
            some ⟨167837952, 24⟩, none, none⟩ : NetworkObject).type
            = some NetworkObject.ObjectType.NETWORK
          ∧ (⟨none, some "NET_10.1.1.0_24", some NetworkObject.ObjectType.NETWORK,
              some ⟨167837952, 24⟩, none, none⟩ : NetworkObject).cli_attributes
            = Except.ok (" subnet " ++ ipDotted net.addr ++ " " ++ net.netmaskStr))) :=
  ⟨C7_host_iff_prefixlen32 NetworkObject.ObjectType.HOST (Or.inl rfl)
      (some "10.1.1.5") none none none none none none _ rfl,
   C7_host_iff_prefixlen32 NetworkObject.ObjectType.NETWORK (Or.inr rfl)
      (some "10.1.1.0") none none (some "24") none none none _ rfl⟩
